import Mathlib

/-!
Verification development for the APFA index lifecycle management surface:
the FAISS admin API handlers (`src/app/api/admin_faiss.py`), the FAISS
performance and migration-trigger models (`src/app/models/faiss_models.py`),
the performance snapshot models (`src/app/models/performance_snapshot.py`),
and the hot-swap request/response schemas
(`src/app/schemas/faiss_management.py`).

Latency, memory and percentage values are Python floats in the source; they
are embedded as rationals (`ℚ`), which is exact for every literal appearing
in the source and keeps every comparison decidable.  Python f-string number
rendering is abstracted by `toString` on `ℚ`; no theorem below depends on the
exact rendering of a number inside a reason string.
-/

namespace APFA

/-- Migration trigger thresholds: the `MigrationTriggers` pydantic model of
`src/app/models/faiss_models.py` (all fields carry source defaults). -/
structure MigrationTriggers where
  vector_count_threshold : ℕ
  p95_latency_threshold_ms : ℚ
  memory_threshold_percent : ℚ
  faiss_latency_threshold_percent : ℚ
  early_warning_vector_count : ℕ
  early_warning_latency_ms : ℚ
  growth_rate_projection_days : ℕ
deriving Repr, DecidableEq

/-- `MigrationTriggers()` with every field left at its declared default, as
constructed inside `check_migration_triggers`. -/
def defaultTriggers : MigrationTriggers where
  vector_count_threshold := 500000
  p95_latency_threshold_ms := 200
  memory_threshold_percent := 50
  faiss_latency_threshold_percent := 20
  early_warning_vector_count := 400000
  early_warning_latency_ms := 100
  growth_rate_projection_days := 30

/-- The `EnhancedIndexPerformanceMetrics` pydantic model: four measured
fields plus the two derived fields the `check_migration_triggers`
model validator fills in. -/
structure EnhancedIndexPerformanceMetrics where
  p95_search_latency_ms : ℚ
  p99_search_latency_ms : ℚ
  memory_usage_percent : ℚ
  faiss_latency_percent_of_request : ℚ
  requires_migration : Bool
  migration_reason : Option String
deriving Repr, DecidableEq

/-- The f-string reason built when P95 latency exceeds its threshold. -/
def p95Reason (v t : ℚ) : String :=
  "P95 latency (" ++ toString v ++ "ms) exceeds threshold (" ++ toString t ++ "ms)"

/-- The f-string reason built when memory usage exceeds its threshold. -/
def memoryReason (v t : ℚ) : String :=
  "Memory usage (" ++ toString v ++ "%) exceeds threshold (" ++ toString t ++ "%)"

/-- The f-string reason built when the FAISS latency share exceeds its
threshold. -/
def faissReason (v t : ℚ) : String :=
  "FAISS latency % (" ++ toString v ++ "%) exceeds threshold (" ++ toString t ++ "%)"

/-- Separator used by the `"; ".join(reasons)` call in the source. -/
def reasonSep : String := "; "

/-- `EnhancedIndexPerformanceMetrics.check_migration_triggers`
(`src/app/models/faiss_models.py`): a `mode='after'` model validator.  It
instantiates default `MigrationTriggers`, collects a reason for each of the
three measured conditions that strictly exceeds its threshold (P95 latency,
memory usage, FAISS latency share — the vector count is not a field of the
model and is not consulted), and, only when at least one reason was
collected, sets `requires_migration` and joins the reasons into
`migration_reason`. -/
def check_migration_triggers (m : EnhancedIndexPerformanceMetrics) :
    EnhancedIndexPerformanceMetrics :=
  let triggers := defaultTriggers
  let reasons : List String :=
    (if m.p95_search_latency_ms > triggers.p95_latency_threshold_ms then
      [p95Reason m.p95_search_latency_ms triggers.p95_latency_threshold_ms] else [])
    ++ (if m.memory_usage_percent > triggers.memory_threshold_percent then
      [memoryReason m.memory_usage_percent triggers.memory_threshold_percent] else [])
    ++ (if m.faiss_latency_percent_of_request > triggers.faiss_latency_threshold_percent then
      [faissReason m.faiss_latency_percent_of_request triggers.faiss_latency_threshold_percent] else [])
  if reasons.isEmpty then m
  else { m with
    requires_migration := true
    migration_reason := some (String.intercalate reasonSep reasons) }

/-- The `IndexPerformanceMetrics` pydantic model
(`src/app/models/faiss_models.py`): plain measured fields; its validators
live in `mkIndexPerformanceMetrics`. -/
structure IndexPerformanceMetrics where
  p95_search_latency_ms : ℚ
  p99_search_latency_ms : ℚ
  memory_usage_percent : ℚ
  faiss_latency_percent_of_request : ℚ
  search_throughput_qps : ℚ
deriving Repr, DecidableEq

/-- Error raised by the `ge`/validator checks on latency fields. -/
def errNegativeLatency : String := "Latency must be non-negative"

/-- Error raised by a violated percentage range constraint (`ge=0, le=100`). -/
def errPercentRange : String := "Percentage must be between 0 and 100"

/-- Error raised by the non-negative throughput validator. -/
def errNegativeThroughput : String := "Throughput must be non-negative"

/-- Error raised by `validate_p99_greater_than_p95` on
`IndexPerformanceMetrics`. -/
def errP99LtP95 : String := "P99 latency must be >= P95 latency"

/-- Validating constructor for `IndexPerformanceMetrics`: pydantic runs the
field `ge`/`le` range constraints and the three `field_validator`s
(non-negative latency, `p99 >= p95` against the already-validated `p95`,
non-negative throughput); any violation rejects the instance with a
validation error. -/
def mkIndexPerformanceMetrics (p95 p99 mem fp qps : ℚ) :
    Except String IndexPerformanceMetrics :=
  if p95 < 0 then Except.error errNegativeLatency
  else if p99 < 0 then Except.error errNegativeLatency
  else if p99 < p95 then Except.error errP99LtP95
  else if mem < 0 ∨ mem > 100 then Except.error errPercentRange
  else if fp < 0 ∨ fp > 100 then Except.error errPercentRange
  else if qps < 0 then Except.error errNegativeThroughput
  else Except.ok
    { p95_search_latency_ms := p95
      p99_search_latency_ms := p99
      memory_usage_percent := mem
      faiss_latency_percent_of_request := fp
      search_throughput_qps := qps }

/-- `SystemResourceMetrics` (`src/app/models/performance_snapshot.py`):
nested resource figures of a snapshot; validated separately by pydantic
before the enclosing snapshot is assembled. -/
structure SystemResourceMetrics where
  cpu_utilization_percent : ℚ
  memory_utilization_percent : ℚ
  disk_io_utilization_percent : ℚ
  network_throughput_mbps : ℚ
  database_connections : ℕ
  cache_memory_usage_mb : ℚ
deriving Repr, DecidableEq

/-- `PerformanceSnapshot` (`src/app/models/performance_snapshot.py`); the
timestamp field is wall-clock metadata with no arithmetic content and is
omitted from the embedding. -/
structure PerformanceSnapshot where
  request_count : ℤ
  response_time_p95_ms : ℚ
  response_time_p99_ms : ℚ
  error_rate_percent : ℚ
  cache_hit_rate_percent : ℚ
  active_requests : ℤ
  system_resources : SystemResourceMetrics
deriving Repr, DecidableEq

/-- Error raised by a violated `ge=0` constraint on an integer count. -/
def errNegativeCount : String := "Count must be non-negative"

/-- Error raised by `validate_p99_greater_than_p95` on
`PerformanceSnapshot`. -/
def errP99RespLtP95 : String := "P99 response time must be >= P95"

/-- Validating constructor for `PerformanceSnapshot`: the field range
constraints plus the `validate_p99_greater_than_p95` field validator, which
rejects any snapshot whose p99 response time is strictly below its p95. -/
def mkPerformanceSnapshot (rc : ℤ) (p95 p99 er chr : ℚ) (ar : ℤ)
    (sr : SystemResourceMetrics) : Except String PerformanceSnapshot :=
  if rc < 0 then Except.error errNegativeCount
  else if p95 < 0 then Except.error errNegativeLatency
  else if p99 < 0 then Except.error errNegativeLatency
  else if p99 < p95 then Except.error errP99RespLtP95
  else if er < 0 ∨ er > 100 then Except.error errPercentRange
  else if chr < 0 ∨ chr > 100 then Except.error errPercentRange
  else if ar < 0 then Except.error errNegativeCount
  else Except.ok
    { request_count := rc
      response_time_p95_ms := p95
      response_time_p99_ms := p99
      error_rate_percent := er
      cache_hit_rate_percent := chr
      active_requests := ar
      system_resources := sr }

/-! ## Admin API state and handlers (`src/app/api/admin_faiss.py`) -/

/-- `PerformanceMetrics` of `src/app/schemas/faiss_management.py`: the
metrics block inside the module-level `current_index_metadata` dict and the
status response. -/
structure PerformanceMetricsSchema where
  p95_search_latency_ms : ℚ
  p99_search_latency_ms : ℚ
  memory_usage_percent : ℚ
  search_throughput_qps : ℚ
deriving Repr, DecidableEq

/-- `MigrationStatus` of `src/app/schemas/faiss_management.py`: the
hot-swap migration block of the index metadata. -/
structure MigrationStatus where
  is_migrating : Bool
  current_version : String
  target_version : Option String
  traffic_percentage : ℚ
  migration_phase : String
deriving Repr, DecidableEq

/-- The `migration_thresholds` block of `current_index_metadata`. -/
structure MigrationThresholds where
  vector_count_trigger : ℕ
  latency_trigger_ms : ℚ
  memory_trigger_percent : ℚ
deriving Repr, DecidableEq

/-- The module-level `current_index_metadata` dict of
`src/app/api/admin_faiss.py`, as a typed record: the whole mutable state the
three admin handlers read and write. -/
structure IndexMetadata where
  version : String
  type : String
  vector_count : ℕ
  dimensions : ℕ
  memory_size_mb : ℚ
  build_time_seconds : ℚ
  performance_metrics : PerformanceMetricsSchema
  migration_status : MigrationStatus
  migration_thresholds : MigrationThresholds
deriving Repr, DecidableEq

/-- The initial value of `current_index_metadata` as written in the
source. -/
def initialIndexMetadata : IndexMetadata where
  version := "v1"
  type := "IndexFlatIP"
  vector_count := 100000
  dimensions := 384
  memory_size_mb := 150.5
  build_time_seconds := 12.5
  performance_metrics :=
    { p95_search_latency_ms := 25
      p99_search_latency_ms := 45
      memory_usage_percent := 35
      search_throughput_qps := 2000 }
  migration_status :=
    { is_migrating := false
      current_version := "v1"
      target_version := none
      traffic_percentage := 100
      migration_phase := "none" }
  migration_thresholds :=
    { vector_count_trigger := 500000
      latency_trigger_ms := 100
      memory_trigger_percent := 80 }

/-- `IndexHotSwapRequest` (`src/app/schemas/faiss_management.py`). -/
structure IndexHotSwapRequest where
  new_index_version : String
  gradual_migration : Bool
  rollback_on_regression : Bool
  latency_regression_threshold : ℚ
deriving Repr, DecidableEq

/-- The hard-coded `validation_results` dict built inside
`hot_swap_index`. -/
structure ValidationResults where
  dimension_check : Bool
  integrity_check : Bool
  memory_check : Bool
  performance_benchmark : Bool
deriving Repr, DecidableEq

/-- `IndexHotSwapResponse` (`src/app/schemas/faiss_management.py`). -/
structure IndexHotSwapResponse where
  swap_id : String
  status : String
  current_phase : String
  validation_results : ValidationResults
  estimated_completion_seconds : ℚ
deriving Repr, DecidableEq

/-- The args/kwargs of the `celery_app.send_task` call issued by
`hot_swap_index`: what the API hands to the background swap worker. -/
structure HotSwapTaskCall where
  new_index_version : String
  swap_id : String
  gradual_migration : Bool
  rollback_on_regression : Bool
  latency_threshold : ℚ
deriving Repr, DecidableEq

/-- Full effect of one `hot_swap_index` call: the updated module state, the
dispatched background task, and the HTTP response body. -/
structure HotSwapOutcome where
  state : IndexMetadata
  task : HotSwapTaskCall
  response : IndexHotSwapResponse
deriving Repr, DecidableEq

/-- The `POST /admin/index/hot-swap` handler `hot_swap_index`
(`src/app/api/admin_faiss.py`).  The generated `swap_id` (a UUID) is taken
as a parameter.  The handler builds an all-`True` `validation_results`
dict, unconditionally overwrites `current_index_metadata["migration_status"]`
with a fresh in-flight record (traffic 0, phase `validation`), dispatches
the background swap task with the request's parameters, and replies
`initiated`; no branch of the handler raises. -/
def hot_swap_index (s : IndexMetadata) (req : IndexHotSwapRequest)
    (swap_id : String) : HotSwapOutcome :=
  let validation_results : ValidationResults :=
    { dimension_check := true
      integrity_check := true
      memory_check := true
      performance_benchmark := true }
  let newStatus : MigrationStatus :=
    { is_migrating := true
      current_version := s.version
      target_version := some req.new_index_version
      traffic_percentage := 0
      migration_phase := "validation" }
  { state := { s with migration_status := newStatus }
    task :=
      { new_index_version := req.new_index_version
        swap_id := swap_id
        gradual_migration := req.gradual_migration
        rollback_on_regression := req.rollback_on_regression
        latency_threshold := req.latency_regression_threshold }
    response :=
      { swap_id := swap_id
        status := "initiated"
        current_phase := "validation"
        validation_results := validation_results
        estimated_completion_seconds := if req.gradual_migration then 60 else 10 } }

/-- `IndexBuildRequest` (`src/app/schemas/faiss_management.py`), with the
nested optimization options flattened. -/
structure IndexBuildRequest where
  embedding_batch_paths : List String
  index_type : String
  normalize_vectors : Bool
  memory_optimization : Bool
  validation_enabled : Bool
deriving Repr, DecidableEq

/-- `IndexBuildResponse` (`src/app/schemas/faiss_management.py`); the Celery
task id is runtime-generated and carries no logic, so it is omitted. -/
structure IndexBuildResponse where
  index_version : String
  estimated_build_time_seconds : ℚ
  status_endpoint : String
deriving Repr, DecidableEq

/-- The version successor computed by `build_index`:
`f"v{int(current_index_metadata['version'][1:]) + 1}"`.  `int(...)` fails
(an uncaught `ValueError`) when the text after the leading character is not
an integer literal; that is the `none` case. -/
def newVersionString (v : String) : Option String :=
  (String.toInt? (v.drop 1)).map (fun n => "v" ++ toString (n + 1))

/-- The `POST /admin/index/build` handler `build_index`
(`src/app/api/admin_faiss.py`).  It computes the successor version string
from the current metadata, dispatches the build task, and answers with the
version and a time estimate (`len(paths) * 1000 / 10000 * 15` seconds); it
never writes `current_index_metadata`, so the state component of the result
is the input state.  `none` models the uncaught parse failure of
`int(...)`, which also leaves the state untouched. -/
def build_index (s : IndexMetadata) (req : IndexBuildRequest) :
    IndexMetadata × Option IndexBuildResponse :=
  match newVersionString s.version with
  | none => (s, none)
  | some nv =>
    let estimated_vectors : ℕ := req.embedding_batch_paths.length * 1000
    let estimated_time : ℚ := (estimated_vectors : ℚ) / 10000 * 15
    (s, some
      { index_version := nv
        estimated_build_time_seconds := estimated_time
        status_endpoint := "/admin/index/status?version=" ++ nv })

/-- `IndexStatusResponse` (`src/app/schemas/faiss_management.py`). -/
structure IndexStatusResponse where
  version : String
  type : String
  vector_count : ℕ
  dimensions : ℕ
  memory_size_mb : ℚ
  build_time_seconds : ℚ
  performance_metrics : PerformanceMetricsSchema
  migration_status : MigrationStatus
  migration_thresholds : MigrationThresholds
deriving Repr, DecidableEq

/-- The success body assembled by `get_index_status`: the current metadata
copied field by field into an `IndexStatusResponse`. -/
def statusResponseOf (s : IndexMetadata) : IndexStatusResponse where
  version := s.version
  type := s.type
  vector_count := s.vector_count
  dimensions := s.dimensions
  memory_size_mb := s.memory_size_mb
  build_time_seconds := s.build_time_seconds
  performance_metrics := s.performance_metrics
  migration_status := s.migration_status
  migration_thresholds := s.migration_thresholds

/-- The `GET /admin/index/status` handler `get_index_status`
(`src/app/api/admin_faiss.py`).  The optional `version` query parameter
defaults to Python `None`; the guard is `if version and version !=
current_index_metadata["version"]`, so a 404 is raised exactly when the
parameter is present (`some`), truthy (non-empty), and differs from the
current version; otherwise the current metadata is returned. -/
def get_index_status (s : IndexMetadata) (version : Option String) :
    Except Nat IndexStatusResponse :=
  match version with
  | some v =>
    if v ≠ "" ∧ v ≠ s.version then Except.error 404
    else Except.ok (statusResponseOf s)
  | none => Except.ok (statusResponseOf s)

/-! ## Spec-modelled background swap worker

The Celery task named by the `celery_app.send_task` call in
`hot_swap_index` (queue `index_swap`) is not implemented anywhere under the
repository source; only its dispatch site exists.  The Migrating-phase tick
below is therefore modelled from the specification. -/

/-- The `SwapOperation.phase` enumeration of the spec's data model. -/
inductive SwapPhase where
  | Validating
  | Migrating
  | Completed
  | RollingBack
  | RolledBack
  | Failed
  | Cancelled
deriving Repr, DecidableEq

/-- Modelled from the spec: the in-flight `SwapOperation` record carried by
the background swap worker, whose implementation is absent from the source
(only the API's task dispatch exists).  `rollback_threshold` is the
`latency_regression_threshold` supplied in the hot-swap request and
forwarded to the worker; `baseline_p95` is the source version's pre-swap
p95. -/
structure SwapOperation where
  phase : SwapPhase
  traffic_percentage : ℚ
  baseline_p95 : ℚ
  rollback_threshold : ℚ
deriving Repr, DecidableEq

/-- Modelled from the spec: one tick of the absent background swap worker's
Migrating phase.  Per the spec, each step first compares the target's
current-window p95 against the source's pre-swap baseline: if
`(target_p95 - baseline_p95) / baseline_p95 > rollback_threshold` the
operation transitions to `RollingBack` immediately, overriding the
scheduled advance; otherwise the traffic percentage advances by the
configured step, completing at 100. -/
def migratingTick (op : SwapOperation) (target_p95 step : ℚ) : SwapOperation :=
  if op.phase = SwapPhase.Migrating then
    if (target_p95 - op.baseline_p95) / op.baseline_p95 > op.rollback_threshold then
      { op with phase := SwapPhase.RollingBack }
    else if op.traffic_percentage + step ≥ 100 then
      { op with phase := SwapPhase.Completed, traffic_percentage := 100 }
    else
      { op with traffic_percentage := op.traffic_percentage + step }
  else op

/-! ## Concrete fixtures used by counterexamples and witnesses -/

/-- A mid-migration metadata state: `initialIndexMetadata` whose
`migration_status` records an in-flight swap toward `v2` at 40% traffic. -/
def midSwapState : IndexMetadata :=
  let tv : String := "v2"
  { initialIndexMetadata with
    migration_status :=
      { is_migrating := true
        current_version := "v1"
        target_version := some tv
        traffic_percentage := 40
        migration_phase := "migration" } }

/-- A hot-swap request targeting `v3` with source defaults for the other
fields. -/
def swapRequestV3 : IndexHotSwapRequest where
  new_index_version := "v3"
  gradual_migration := true
  rollback_on_regression := true
  latency_regression_threshold := 10

/-- A hot-swap request targeting `v2`; in the spec's Scenario B this target
is imagined to have 768 dimensions against the source's 384. -/
def swapRequestV2 : IndexHotSwapRequest where
  new_index_version := "v2"
  gradual_migration := true
  rollback_on_regression := true
  latency_regression_threshold := 10

/-- A fixed swap id standing for the UUID the handler generates. -/
def swapIdA : String := "swap_00000000-0000-0000-0000-000000000001"

/-- Metrics whose only exceeded default threshold is the FAISS latency
share (25% > 20%): p95 latency 50ms is far below the 200ms threshold and
memory 40% is below the 50% threshold. -/
def faissOnlyMetrics : EnhancedIndexPerformanceMetrics where
  p95_search_latency_ms := 50
  p99_search_latency_ms := 60
  memory_usage_percent := 40
  faiss_latency_percent_of_request := 25
  requires_migration := false
  migration_reason := none

/-- Metrics sitting between 80% and 100% of the p95 latency threshold
(190ms against the 200ms threshold), with every other figure well inside
its limit. -/
def nearThresholdMetrics : EnhancedIndexPerformanceMetrics where
  p95_search_latency_ms := 190
  p99_search_latency_ms := 195
  memory_usage_percent := 30
  faiss_latency_percent_of_request := 10
  requires_migration := false
  migration_reason := none

/-- The empty version string: a truthy-check edge of the status handler. -/
def emptyVersionQuery : String := ""

/-- A version id distinct from the initial metadata's `v1`. -/
def missingVersionQuery : String := "v9"

/-- A well-formed metrics record accepted by `mkIndexPerformanceMetrics`
(the values of the source's docstring example). -/
def okMetricsExample : IndexPerformanceMetrics where
  p95_search_latency_ms := 50
  p99_search_latency_ms := 95
  memory_usage_percent := 35.5
  faiss_latency_percent_of_request := 25
  search_throughput_qps := 1000

/-- Resource figures for snapshot fixtures (the source's docstring
example). -/
def exampleResources : SystemResourceMetrics where
  cpu_utilization_percent := 65.5
  memory_utilization_percent := 42
  disk_io_utilization_percent := 15
  network_throughput_mbps := 125.5
  database_connections := 25
  cache_memory_usage_mb := 150.5

/-- A well-formed snapshot accepted by `mkPerformanceSnapshot` (the
source's docstring example). -/
def okSnapshotExample : PerformanceSnapshot where
  request_count := 15420
  response_time_p95_ms := 185.5
  response_time_p99_ms := 350
  error_rate_percent := 0.05
  cache_hit_rate_percent := 75
  active_requests := 12
  system_resources := exampleResources

/-- A mid-migration swap operation at 40% traffic with a 100ms baseline p95
and a 10% rollback threshold. -/
def migratingOpExample : SwapOperation where
  phase := SwapPhase.Migrating
  traffic_percentage := 40
  baseline_p95 := 100
  rollback_threshold := 1/10

/-! ## Claims -/

/-- C1 (counterexample): with a swap already in flight
(`midSwapState.migration_status.is_migrating = true`), a further
`POST /admin/index/hot-swap` call does not fail with a 409: it answers
`initiated` and overwrites the existing migration state, contradicting the
claim that the call fails and leaves the migration state unchanged. -/
theorem c1_counterexample :
    midSwapState.migration_status.is_migrating = true ∧
    (hot_swap_index midSwapState swapRequestV3 swapIdA).response.status = "initiated" ∧
    (hot_swap_index midSwapState swapRequestV3 swapIdA).state.migration_status ≠
      midSwapState.migration_status := by
  decide

/-- C1 (amended): the hot-swap handler performs no in-progress check at
all: every call — in particular one made while `is_migrating` is already
true — succeeds with status `initiated` and unconditionally replaces
`migration_status` with a fresh in-flight record, so the at-most-one
non-terminal swap invariant is not enforced. -/
theorem c1_hot_swap_unconditional (s : IndexMetadata) (req : IndexHotSwapRequest)
    (sid : String) :
    (hot_swap_index s req sid).response.status = "initiated" ∧
    (hot_swap_index s req sid).state.migration_status =
      { is_migrating := true
        current_version := s.version
        target_version := some req.new_index_version
        traffic_percentage := 0
        migration_phase := "validation" } :=
  ⟨rfl, rfl⟩

/-- C2 (counterexample): metrics whose p95 latency and memory usage are
both within their thresholds (and which carry no vector count at all) are
still flagged `requires_migration`, because the evaluation also triggers on
the FAISS latency share — so `Recommended` is not characterised by the
claim's three conditions. -/
theorem c2_counterexample :
    (check_migration_triggers faissOnlyMetrics).requires_migration = true ∧
    faissOnlyMetrics.p95_search_latency_ms ≤ defaultTriggers.p95_latency_threshold_ms ∧
    faissOnlyMetrics.memory_usage_percent ≤ defaultTriggers.memory_threshold_percent := by
  decide

/-- C2 (amended): for metrics entering evaluation with the
`requires_migration` flag at its default `false`, the evaluation sets the
flag exactly when p95 latency exceeds 200ms, or memory usage exceeds 50%,
or the FAISS latency share exceeds 20%; the vector count is not an input of
the evaluation. -/
theorem c2_requires_migration_iff (m : EnhancedIndexPerformanceMetrics)
    (h : m.requires_migration = false) :
    (check_migration_triggers m).requires_migration = true ↔
      (m.p95_search_latency_ms > defaultTriggers.p95_latency_threshold_ms ∨
       m.memory_usage_percent > defaultTriggers.memory_threshold_percent ∨
       m.faiss_latency_percent_of_request > defaultTriggers.faiss_latency_threshold_percent) := by
  by_cases h1 : m.p95_search_latency_ms > defaultTriggers.p95_latency_threshold_ms <;>
  by_cases h2 : m.memory_usage_percent > defaultTriggers.memory_threshold_percent <;>
  by_cases h3 : m.faiss_latency_percent_of_request > defaultTriggers.faiss_latency_threshold_percent <;>
  simp [check_migration_triggers, h1, h2, h3, h]

/-- C2 (witness): the amended characterisation applied to the concrete
FAISS-share-only metrics. -/
theorem c2_requires_migration_iff_witness :
    (check_migration_triggers faissOnlyMetrics).requires_migration = true ↔
      (faissOnlyMetrics.p95_search_latency_ms > defaultTriggers.p95_latency_threshold_ms ∨
       faissOnlyMetrics.memory_usage_percent > defaultTriggers.memory_threshold_percent ∨
       faissOnlyMetrics.faiss_latency_percent_of_request >
         defaultTriggers.faiss_latency_threshold_percent) :=
  c2_requires_migration_iff faissOnlyMetrics (by decide)

/-- C3 (counterexample): a hot-swap call toward a target the code knows
nothing about (the request carries only a version string, never target
dimensions) does not fail: it reports `dimension_check = true`, answers
`initiated`, and proceeds to an in-flight `validation` phase instead of
`Failed`, refuting the claim that a dimension-mismatched `BeginSwap` fails
with `DimensionMismatch`. -/
theorem c3_counterexample :
    (hot_swap_index initialIndexMetadata swapRequestV2 swapIdA).response.status = "initiated" ∧
    (hot_swap_index initialIndexMetadata swapRequestV2 swapIdA).response.validation_results.dimension_check = true ∧
    (hot_swap_index initialIndexMetadata swapRequestV2 swapIdA).state.migration_status.is_migrating = true ∧
    (hot_swap_index initialIndexMetadata swapRequestV2 swapIdA).state.migration_status.migration_phase = "validation" ∧
    (hot_swap_index initialIndexMetadata swapRequestV2 swapIdA).state.migration_status.traffic_percentage = 0 := by
  decide

/-- C3 (amended): the handler performs no dimension validation: the
`validation_results` dict is the constant all-passing record, every call
succeeds with status `initiated` in phase `validation`, and the only part
of the claim the code realises is that the traffic percentage is 0 at
initiation. -/
theorem c3_no_dimension_validation (s : IndexMetadata) (req : IndexHotSwapRequest)
    (sid : String) :
    (hot_swap_index s req sid).response.validation_results =
      { dimension_check := true
        integrity_check := true
        memory_check := true
        performance_benchmark := true } ∧
    (hot_swap_index s req sid).response.status = "initiated" ∧
    (hot_swap_index s req sid).response.current_phase = "validation" ∧
    (hot_swap_index s req sid).state.migration_status.traffic_percentage = 0 :=
  ⟨rfl, rfl, rfl, rfl⟩

/-- C4: (spec-modelled worker) at any Migrating-phase tick where the
target's current p95 regresses past the rollback threshold relative to the
pre-swap baseline, the operation transitions to `RollingBack` with the
scheduled traffic advance overridden (traffic unchanged); and the API
handler forwards the request's `latency_regression_threshold` to the worker
as its rollback threshold. -/
theorem c4_regression_overrides_advance (op : SwapOperation) (target_p95 step : ℚ)
    (hphase : op.phase = SwapPhase.Migrating)
    (hreg : (target_p95 - op.baseline_p95) / op.baseline_p95 > op.rollback_threshold) :
    migratingTick op target_p95 step = { op with phase := SwapPhase.RollingBack } ∧
    ∀ (s : IndexMetadata) (req : IndexHotSwapRequest) (sid : String),
      (hot_swap_index s req sid).task.latency_threshold = req.latency_regression_threshold := by
  refine ⟨?_, fun s req sid => rfl⟩
  simp [migratingTick, hphase, hreg]

/-- C4 (witness): the regression rule at a concrete tick: 40% traffic,
baseline p95 100ms, threshold 10%, observed target p95 120ms (a 20%
regression) rolls back. -/
theorem c4_regression_overrides_advance_witness :
    migratingTick migratingOpExample 120 10 =
      { migratingOpExample with phase := SwapPhase.RollingBack } ∧
    (hot_swap_index initialIndexMetadata swapRequestV3 swapIdA).task.latency_threshold =
      swapRequestV3.latency_regression_threshold := by
  have h := c4_regression_overrides_advance migratingOpExample 120 10 (by decide)
    (by norm_num [migratingOpExample])
  exact ⟨h.1, h.2 initialIndexMetadata swapRequestV3 swapIdA⟩

/-- C5 (counterexample): metrics at 95% of the p95 latency threshold (190ms
of 200ms, within 80% without exceeding) are returned unchanged — no early
warning of any kind is produced — and the configured early-warning latency
threshold is 100ms, which is not 80% of the 200ms migration threshold. -/
theorem c5_counterexample :
    nearThresholdMetrics.p95_search_latency_ms ≥
      4/5 * defaultTriggers.p95_latency_threshold_ms ∧
    nearThresholdMetrics.p95_search_latency_ms ≤ defaultTriggers.p95_latency_threshold_ms ∧
    check_migration_triggers nearThresholdMetrics = nearThresholdMetrics ∧
    defaultTriggers.early_warning_latency_ms ≠
      4/5 * defaultTriggers.p95_latency_threshold_ms := by
  refine ⟨by norm_num [nearThresholdMetrics, defaultTriggers],
    by norm_num [nearThresholdMetrics, defaultTriggers], ?_,
    by norm_num [defaultTriggers]⟩
  norm_num [check_migration_triggers, nearThresholdMetrics, defaultTriggers]

/-- C5 (amended): the default early-warning vector count is 80% of the
vector count threshold (400,000 of 500,000), but the early-warning latency
threshold is 50% — not 80% — of the p95 latency threshold (100ms of 200ms);
and the evaluation emits no early-warning decision: metrics exceeding no
migration threshold are returned unchanged. -/
theorem c5_early_warning_config (m : EnhancedIndexPerformanceMetrics)
    (h1 : ¬ m.p95_search_latency_ms > defaultTriggers.p95_latency_threshold_ms)
    (h2 : ¬ m.memory_usage_percent > defaultTriggers.memory_threshold_percent)
    (h3 : ¬ m.faiss_latency_percent_of_request > defaultTriggers.faiss_latency_threshold_percent) :
    check_migration_triggers m = m ∧
    5 * defaultTriggers.early_warning_vector_count = 4 * defaultTriggers.vector_count_threshold ∧
    2 * defaultTriggers.early_warning_latency_ms = defaultTriggers.p95_latency_threshold_ms := by
  refine ⟨?_, by decide, by norm_num [defaultTriggers]⟩
  simp [check_migration_triggers, h1, h2, h3]

/-- C5 (witness): the amended statement at the concrete near-threshold
metrics. -/
theorem c5_early_warning_config_witness :
    check_migration_triggers nearThresholdMetrics = nearThresholdMetrics ∧
    5 * defaultTriggers.early_warning_vector_count = 4 * defaultTriggers.vector_count_threshold ∧
    2 * defaultTriggers.early_warning_latency_ms = defaultTriggers.p95_latency_threshold_ms :=
  c5_early_warning_config nearThresholdMetrics (by decide) (by decide) (by decide)

/-- C6: the trigger evaluation is a pure function of the metrics record and
is idempotent: re-running `check_migration_triggers` on an
already-evaluated record reproduces the same `requires_migration` flag and
the same `migration_reason` string — in fact the whole record is a fixed
point after one evaluation. -/
theorem c6_evaluation_idempotent (m : EnhancedIndexPerformanceMetrics) :
    check_migration_triggers (check_migration_triggers m) = check_migration_triggers m := by
  by_cases h1 : m.p95_search_latency_ms > defaultTriggers.p95_latency_threshold_ms <;>
  by_cases h2 : m.memory_usage_percent > defaultTriggers.memory_threshold_percent <;>
  by_cases h3 : m.faiss_latency_percent_of_request > defaultTriggers.faiss_latency_threshold_percent <;>
  simp [check_migration_triggers, h1, h2, h3]

/-- C7: immediately after a hot-swap call, a parameterless
`GET /admin/index/status` succeeds and reports the pre-swap active version
together with the in-flight swap: `is_migrating = true`, `current_version`
the pre-swap version, `target_version` the requested one, phase
`validation`, traffic 0. -/
theorem c7_status_after_hot_swap (s : IndexMetadata) (req : IndexHotSwapRequest)
    (sid : String) :
    get_index_status (hot_swap_index s req sid).state none =
      Except.ok (statusResponseOf (hot_swap_index s req sid).state) ∧
    (statusResponseOf (hot_swap_index s req sid).state).version = s.version ∧
    (statusResponseOf (hot_swap_index s req sid).state).migration_status =
      { is_migrating := true
        current_version := s.version
        target_version := some req.new_index_version
        traffic_percentage := 0
        migration_phase := "validation" } :=
  ⟨rfl, rfl, rfl⟩

/-- C8 (counterexample): querying status with the empty-string version —
an explicit value different from the current `v1` — succeeds instead of
failing with 404, because the handler's truthiness guard skips the
comparison for empty strings. -/
theorem c8_counterexample :
    emptyVersionQuery ≠ initialIndexMetadata.version ∧
    get_index_status initialIndexMetadata (some emptyVersionQuery) =
      Except.ok (statusResponseOf initialIndexMetadata) :=
  ⟨by decide, rfl⟩

/-- C8 (amended): a status query naming a non-empty version different from
the current one fails with 404; naming the current version, the empty
string, or no version at all succeeds with the current metadata. -/
theorem c8_status_lookup (s : IndexMetadata) (v : String) :
    (v ≠ "" → v ≠ s.version → get_index_status s (some v) = Except.error 404) ∧
    get_index_status s (some s.version) = Except.ok (statusResponseOf s) ∧
    get_index_status s none = Except.ok (statusResponseOf s) := by
  refine ⟨fun hne hv => ?_, ?_, rfl⟩
  · simp [get_index_status, hne, hv]
  · simp [get_index_status]

/-- C8 (witness): the amended lookup behaviour at the initial metadata and
the absent version id `v9`. -/
theorem c8_status_lookup_witness :
    get_index_status initialIndexMetadata (some missingVersionQuery) = Except.error 404 ∧
    get_index_status initialIndexMetadata (some initialIndexMetadata.version) =
      Except.ok (statusResponseOf initialIndexMetadata) := by
  have h := c8_status_lookup initialIndexMetadata missingVersionQuery
  exact ⟨h.1 (by decide) (by decide), h.2.1⟩

/-- C9: the build endpoint never writes the stored index metadata — the
state after any `build_index` call is exactly the state before — and the
returned `index_version` is a function of the unchanged current version
(its numeric successor), hence identical across any two build calls made
against the same state. -/
theorem c9_build_frame (s : IndexMetadata) (r r2 : IndexBuildRequest) :
    (build_index s r).1 = s ∧
    Option.map IndexBuildResponse.index_version (build_index s r).2 =
      newVersionString s.version ∧
    Option.map IndexBuildResponse.index_version (build_index s r).2 =
      Option.map IndexBuildResponse.index_version (build_index s r2).2 := by
  unfold build_index
  cases hv : newVersionString s.version <;> simp [hv]

/-- C10: both validating constructors enforce `p99 ≥ p95`: any accepted
`IndexPerformanceMetrics` or `PerformanceSnapshot` satisfies the
invariant, and any input with p99 strictly below p95 is rejected with a
validation error. -/
theorem c10_p99_ge_p95 (p95 p99 mem fp qps : ℚ) (rc : ℤ) (rp95 rp99 er chr : ℚ)
    (ar : ℤ) (sr : SystemResourceMetrics) :
    (∀ m, mkIndexPerformanceMetrics p95 p99 mem fp qps = Except.ok m →
       m.p99_search_latency_ms ≥ m.p95_search_latency_ms) ∧
    (p99 < p95 → ∀ m, mkIndexPerformanceMetrics p95 p99 mem fp qps ≠ Except.ok m) ∧
    (∀ snap, mkPerformanceSnapshot rc rp95 rp99 er chr ar sr = Except.ok snap →
       snap.response_time_p99_ms ≥ snap.response_time_p95_ms) ∧
    (rp99 < rp95 → ∀ snap, mkPerformanceSnapshot rc rp95 rp99 er chr ar sr ≠ Except.ok snap) := by
  refine ⟨fun m h => ?_, fun hlt m h => ?_, fun snap h => ?_, fun hlt snap h => ?_⟩
  · unfold mkIndexPerformanceMetrics at h
    split_ifs at h with h1 h2 h3 h4 h5 h6
    obtain rfl := Except.ok.inj h
    exact not_lt.mp h3
  · unfold mkIndexPerformanceMetrics at h
    split_ifs at h
  · unfold mkPerformanceSnapshot at h
    split_ifs at h with h1 h2 h3 h4 h5 h6 h7
    obtain rfl := Except.ok.inj h
    exact not_lt.mp h4
  · unfold mkPerformanceSnapshot at h
    split_ifs at h

/-- C10 (witness): the invariant at the source's docstring examples, and
rejection of the swapped (p99 below p95) variants. -/
theorem c10_p99_ge_p95_witness :
    okMetricsExample.p99_search_latency_ms ≥ okMetricsExample.p95_search_latency_ms ∧
    mkIndexPerformanceMetrics 95 50 35.5 25 1000 ≠ Except.ok okMetricsExample ∧
    okSnapshotExample.response_time_p99_ms ≥ okSnapshotExample.response_time_p95_ms ∧
    mkPerformanceSnapshot 15420 350 185.5 0.05 75 12 exampleResources ≠
      Except.ok okSnapshotExample := by
  have h := c10_p99_ge_p95 50 95 35.5 25 1000 15420 185.5 350 0.05 75 12 exampleResources
  have h2 := c10_p99_ge_p95 95 50 35.5 25 1000 15420 350 185.5 0.05 75 12 exampleResources
  exact ⟨h.1 okMetricsExample (by norm_num [mkIndexPerformanceMetrics, okMetricsExample]),
    h2.2.1 (by norm_num) okMetricsExample,
    h.2.2.1 okSnapshotExample
      (by norm_num [mkPerformanceSnapshot, okSnapshotExample, exampleResources]),
    h2.2.2.2 (by norm_num) okSnapshotExample⟩

end APFA
